import Mathlib

/-!
Shallow embedding of the survey-draft builder of `src/pages/CreateSurveyPage.tsx`
(repository `henriquepappis/survey-backoffice`), together with the API-error
parser of the services module, and proofs of the behavioural claims about it.

The TypeScript component keeps its draft in React state hooks
(`titulo`, `descricao`, `ativo`, `dataValidade`, `questions`, `error`,
`success`, `isSaving`).  Here that state is one record, `PageState`, and every
event handler becomes a pure function `PageState → PageState`.  The browser's
`crypto.randomUUID` id generator is modelled by a monotone counter `nextId`
carried in the state: each string id of the source becomes the `Nat` drawn
from the counter at creation time (the source's only contract on ids is
uniqueness within a draft, which the counter realises).
-/

/-- Model of `DraftOption` of CreateSurveyPage.tsx: `{ id, texto, ativo }`. -/
structure DraftOption where
  id : Nat
  texto : String
  ativo : Bool
deriving Repr, DecidableEq

/-- Model of `DraftQuestion` of CreateSurveyPage.tsx: `{ id, texto, ordem, options }`. -/
structure DraftQuestion where
  id : Nat
  texto : String
  ordem : Nat
  options : List DraftOption
deriving Repr, DecidableEq

/-- The constant `MAX_ACTIVE_OPTIONS = 5`. -/
def MAX_ACTIVE_OPTIONS : Nat := 5

/-- Model of `createOptionDraft(ativo = true)`; the fresh id is passed explicitly. -/
def createOptionDraft (id : Nat) (ativo : Bool := true) : DraftOption :=
  { id := id, texto := "", ativo := ativo }

/-- Model of `createQuestionDraft(ordem)`: empty text and five freshly created options
(ids `baseId+1 .. baseId+5`), all active. -/
def createQuestionDraft (baseId : Nat) (ordem : Nat) : DraftQuestion :=
  { id := baseId
    texto := ""
    ordem := ordem
    options :=
      [ createOptionDraft (baseId + 1), createOptionDraft (baseId + 2),
        createOptionDraft (baseId + 3), createOptionDraft (baseId + 4),
        createOptionDraft (baseId + 5) ] }

/-- JavaScript `.trim()` as used by the page, realised over the character
list so that it computes by kernel reduction (Lean's own `String.trim` is
semantically the same but is defined by well-founded recursion). -/
def jsTrim (s : String) : String :=
  ⟨((s.data.dropWhile Char.isWhitespace).reverse.dropWhile Char.isWhitespace).reverse⟩

/-- Model of `countActiveOptions(options)`: number of options with `ativo` set. -/
def countActiveOptions (options : List DraftOption) : Nat :=
  (options.filter (fun o => o.ativo)).length

/-- The React state of the CreateSurveyPage component, as one record.
`nextId` models the id generator (see module comment). -/
structure PageState where
  titulo : String
  descricao : String
  ativo : Bool
  dataValidade : String
  questions : List DraftQuestion
  error : Option String
  success : Option String
  isSaving : Bool
  nextId : Nat
deriving Repr, DecidableEq

/-- The initial hook values: empty fields, `ativo = true`,
`questions = [createQuestionDraft(1)]`. -/
def initState : PageState :=
  { titulo := "", descricao := "", ativo := true, dataValidade := ""
    questions := [createQuestionDraft 0 1]
    error := none, success := none, isSaving := false, nextId := 6 }

/-- The `Partial<DraftQuestion>` values actually passed to `updateQuestion`
by the page (`{ texto }` or `{ ordem }`): each field either updated or kept. -/
structure QuestionUpdates where
  texto : Option String := none
  ordem : Option Nat := none
deriving Repr, DecidableEq

/-- The `Partial<DraftOption>` values actually passed to `updateOption`
by the page (`{ texto }` or `{ ativo }`). -/
structure OptionUpdates where
  texto : Option String := none
  ativo : Option Bool := none
deriving Repr, DecidableEq

/-- The spread `{ ...question, ...updates }`. -/
def applyQuestionUpdates (u : QuestionUpdates) (q : DraftQuestion) : DraftQuestion :=
  { q with texto := u.texto.getD q.texto, ordem := u.ordem.getD q.ordem }

/-- The spread `{ ...option, ...updates }`. -/
def applyOptionUpdates (u : OptionUpdates) (o : DraftOption) : DraftOption :=
  { o with texto := u.texto.getD o.texto, ativo := u.ativo.getD o.ativo }

/-- Model of `handleAddQuestion`: append `createQuestionDraft(prev.length + 1)`. -/
def handleAddQuestion (s : PageState) : PageState :=
  { s with
    questions := s.questions ++ [createQuestionDraft s.nextId (s.questions.length + 1)]
    nextId := s.nextId + 6 }

/-- Model of `handleRemoveQuestion(id)`: filter the question out, but keep the previous
list when the filtered list would be empty (`filtered.length ? filtered : prev`). -/
def handleRemoveQuestion (id : Nat) (s : PageState) : PageState :=
  let filtered := s.questions.filter (fun q => q.id ≠ id)
  { s with questions := if filtered.isEmpty then s.questions else filtered }

/-- Model of `updateQuestion(id, updates)`: map the spread over the matching question. -/
def updateQuestion (id : Nat) (u : QuestionUpdates) (s : PageState) : PageState :=
  { s with
    questions := s.questions.map (fun q => if q.id = id then applyQuestionUpdates u q else q) }

/-- The warning set by `handleAddOption` when the cap is already reached. -/
def addOptionWarning : String :=
  "Máximo de " ++ toString MAX_ACTIVE_OPTIONS ++
    " opções ativas por pergunta. A nova opção foi criada como inativa."

/-- The per-question body of `handleAddOption`'s map: a matching question gets
one new option appended, active exactly when the cap was not yet reached.
`newId` is the id drawn for the new option. -/
def addOptionStep (questionId newId : Nat) (q : DraftQuestion) : DraftQuestion :=
  if q.id = questionId then
    { q with
      options :=
        q.options ++
          [createOptionDraft newId (decide (countActiveOptions q.options < MAX_ACTIVE_OPTIONS))] }
  else q

/-- Model of `handleAddOption(questionId)`.  The source calls `setError` inside the map
callback for a matching question at the cap; here `error` is set exactly when
such a question exists.  `uniqueId()` is only invoked for a matching question,
so the counter moves only when one exists. -/
def handleAddOption (questionId : Nat) (s : PageState) : PageState :=
  { s with
    questions := s.questions.map (addOptionStep questionId s.nextId)
    error :=
      if s.questions.any
          (fun q => q.id == questionId &&
            decide (MAX_ACTIVE_OPTIONS ≤ countActiveOptions q.options)) then
        some addOptionWarning
      else s.error
    nextId := if s.questions.any (fun q => q.id == questionId) then s.nextId + 1 else s.nextId }

/-- The per-question body of `handleRemoveOption`'s map: filter the option out
unless it is the last one (`question.options.length > 1 ? filter : keep`). -/
def removeOptionStep (questionId optionId : Nat) (q : DraftQuestion) : DraftQuestion :=
  if q.id = questionId then
    { q with
      options :=
        if 1 < q.options.length then q.options.filter (fun o => o.id ≠ optionId)
        else q.options }
  else q

/-- Model of `handleRemoveOption(questionId, optionId)`. -/
def handleRemoveOption (questionId optionId : Nat) (s : PageState) : PageState :=
  { s with questions := s.questions.map (removeOptionStep questionId optionId) }

/-- The warning set by `updateOption` when a toggle to active is rejected. -/
def toggleWarning : String :=
  "Máximo de " ++ toString MAX_ACTIVE_OPTIONS ++
    " opções ativas por pergunta. Desative uma opção antes de ativar outra."

/-- The rejection test of `updateOption`: the target option exists,
`updates.ativo === true`, the target is inactive, and the question's active
count is already at the cap. -/
def optionToggleRejected (optionId : Nat) (u : OptionUpdates) (q : DraftQuestion) : Bool :=
  match q.options.find? (fun o => o.id == optionId) with
  | none => false
  | some target =>
      (u.ativo == some true) && !target.ativo &&
        decide (MAX_ACTIVE_OPTIONS ≤ countActiveOptions q.options)

/-- The per-question body of `updateOption`'s map: return the question
unchanged when the target option is missing or the toggle is rejected,
otherwise apply the spread to the matching option. -/
def updateOptionStep (optionId : Nat) (u : OptionUpdates) (q : DraftQuestion) : DraftQuestion :=
  match q.options.find? (fun o => o.id == optionId) with
  | none => q
  | some _ =>
      if optionToggleRejected optionId u q then q
      else
        { q with
          options := q.options.map (fun o => if o.id = optionId then applyOptionUpdates u o else o) }

/-- Model of `updateOption(questionId, optionId, updates)`; `error` is set exactly when
the map callback of a matching question took the rejection branch. -/
def updateOption (questionId optionId : Nat) (u : OptionUpdates) (s : PageState) : PageState :=
  { s with
    questions :=
      s.questions.map (fun q => if q.id = questionId then updateOptionStep optionId u q else q)
    error :=
      if s.questions.any (fun q => q.id == questionId && optionToggleRejected optionId u q) then
        some toggleWarning
      else s.error }

/-- The `Limpar` button's onClick: clear every field, fresh single question. -/
def resetDraft (s : PageState) : PageState :=
  { s with
    titulo := "", descricao := "", ativo := true, dataValidade := ""
    questions := [createQuestionDraft s.nextId 1]
    error := none, success := none
    nextId := s.nextId + 6 }

/-- The constant `TEMPLATE_TITLE`. -/
def TEMPLATE_TITLE : String := "Satisfação dos Clientes – Rede de Supermercados"

/-- The constant `TEMPLATE_DESCRIPTION`. -/
def TEMPLATE_DESCRIPTION : String :=
  "Esta pesquisa tem como objetivo avaliar a satisfação dos clientes em diferentes áreas dos supermercados. Selecione o supermercado que melhor representa sua opinião para cada item."

/-- The constant `TEMPLATE_OPTIONS`. -/
def TEMPLATE_OPTIONS : List String :=
  [ "Supermercado NovaVida", "Supermercado PreçoBom", "Supermercado Econômico+",
    "Supermercado FamíliaMax", "Supermercado UltraMarket" ]

/-- The constant `TEMPLATE_QUESTIONS`. -/
def TEMPLATE_QUESTIONS : List String :=
  [ "Qual supermercado você considera mais organizado e limpo nas áreas internas?",
    "Qual supermercado oferece a melhor limpeza e higienização dos banheiros?",
    "Qual supermercado tem o melhor estacionamento em termos de espaço, acesso e vagas disponíveis?",
    "Qual supermercado possui a garagem mais segura e bem organizada?",
    "Em qual supermercado o setor de hortifrúti oferece melhor qualidade e apresentação dos produtos?",
    "Qual supermercado oferece o melhor atendimento no setor de açougue?",
    "Qual supermercado possui a melhor organização nas gôndolas e prateleiras?",
    "Em qual supermercado você encontra filas mais rápidas e caixas mais eficientes?",
    "Em qual supermercado você percebe maior variedade de produtos?",
    "Qual supermercado você considera, no geral, o melhor para fazer compras?" ]

/-- One question built by the template select's onChange for the
`supermarkets` value: text from `TEMPLATE_QUESTIONS`, `ordem = index + 1`,
and one option per entry of `TEMPLATE_OPTIONS`, all `ativo: true`.  The id
generator hands out the question's id and then its five option ids. -/
def buildTemplateQuestion (base : Nat) (ordem : Nat) (texto : String) : DraftQuestion :=
  { id := base
    texto := texto
    ordem := ordem
    options :=
      (TEMPLATE_OPTIONS.zip [base + 1, base + 2, base + 3, base + 4, base + 5]).map
        (fun p => { id := p.2, texto := p.1, ativo := true }) }

/-- The `supermarkets` branch of the template select's onChange: replace
title, description, active flag and the whole question tree. -/
def loadTemplate (s : PageState) : PageState :=
  { s with
    titulo := TEMPLATE_TITLE
    descricao := TEMPLATE_DESCRIPTION
    ativo := true
    questions :=
      (TEMPLATE_QUESTIONS.zip (List.range TEMPLATE_QUESTIONS.length)).map
        (fun p => buildTemplateQuestion (s.nextId + 6 * p.2) (p.2 + 1) p.1)
    error := none, success := none
    nextId := s.nextId + 6 * TEMPLATE_QUESTIONS.length }

/-- The draft-mutating user interactions of the page. -/
inductive Op where
  | addQuestion
  | removeQuestion (id : Nat)
  | updateQuestion (id : Nat) (u : QuestionUpdates)
  | addOption (questionId : Nat)
  | removeOption (questionId optionId : Nat)
  | updateOption (questionId optionId : Nat) (u : OptionUpdates)
  | reset
  | loadTemplate
deriving Repr, DecidableEq

/-- Interpretation of one interaction as a state transition. -/
def applyOp : Op → PageState → PageState
  | .addQuestion, s => handleAddQuestion s
  | .removeQuestion id, s => handleRemoveQuestion id s
  | .updateQuestion id u, s => updateQuestion id u s
  | .addOption qid, s => handleAddOption qid s
  | .removeOption qid oid, s => handleRemoveOption qid oid s
  | .updateOption qid oid u, s => updateOption qid oid u s
  | .reset, s => resetDraft s
  | .loadTemplate, s => loadTemplate s

/-- A whole interaction session, applied left to right. -/
def applyOps (ops : List Op) (s : PageState) : PageState :=
  ops.foldl (fun s op => applyOp op s) s

/-!
## The API error parser (`parseApiError` of the services module)

The runtime error values reaching the catch block are modelled by `JsError`:
an axios error (optional response with optional status / body, optional
transport code), a plain `Error` with a message, or anything else.  JavaScript
truthiness of a string is `≠ ""`; the body's `errors` object is truthy
whenever present.
-/

/-- The `ApiError` body shape: optional `message`, optional `errors` record
(kept as its list of values, which is all `parseApiError` uses). -/
structure ApiErrorData where
  message : Option String := none
  errors : Option (List String) := none
deriving Repr, DecidableEq

/-- Model of `error.response`: optional `status` and optional parsed `data`. -/
structure AxiosResponse where
  status : Option Nat := none
  data : Option ApiErrorData := none
deriving Repr, DecidableEq

/-- A caught JavaScript error value, as discriminated by `parseApiError`. -/
inductive JsError where
  | axios (response : Option AxiosResponse) (code : Option String)
  | jsError (message : String)
  | other
deriving Repr, DecidableEq

/-- JavaScript `a || b` for an optional string `a` (empty string is falsy). -/
def orFallback (a : Option String) (b : String) : String :=
  match a with
  | some s => if s = "" then b else s
  | none => b

/-- Model of `parseApiError` of the services module, case by case. -/
def parseApiError : JsError → String
  | .axios response code =>
      let data := response.bind (fun r => r.data)
      let status := response.bind (fun r => r.status)
      if status = some 401 then orFallback (data.bind (fun d => d.message)) "Credenciais inválidas."
      else if status = some 403 then
        orFallback (data.bind (fun d => d.message)) "Você não tem permissão para executar esta ação."
      else
        match data.bind (fun d => d.message) with
        | some m =>
            if m ≠ "" then
              match data.bind (fun d => d.errors) with
              | some vals => m ++ ": " ++ String.intercalate ", " vals
              | none => m
            else noResponseOrGeneric response code
        | none => noResponseOrGeneric response code
  | .jsError message => if message = "" then "Erro inesperado. Tente novamente." else message
  | .other => "Erro inesperado. Tente novamente."
where
  /-- The tail of the axios branch: `if (!error.response) ...` then the
  generic message. -/
  noResponseOrGeneric (response : Option AxiosResponse) (code : Option String) : String :=
    match response with
    | none =>
        if code = some "ECONNABORTED" then
          "A requisição demorou para responder. Tente novamente em instantes."
        else "Não foi possível conectar ao servidor. Verifique sua conexão e tente novamente."
    | some _ => "Erro ao processar sua solicitação. Tente novamente mais tarde."

/-!
## The submission pipeline (`handleSubmit`)

Network traffic is modelled as a trace of `ApiCall` values.  The constructors
cover the endpoints the services module offers to this page: the three create
calls that `handleSubmit` issues, and the update/delete endpoints
(`surveyApi.update`, `surveyApi.remove`, `questionApi.remove`,
`optionApi.remove`) that it never issues — their presence makes "no rollback
call" a statement rather than a tautology.  The backend's replies are an
oracle `Nat → Except JsError Nat` giving, for the n-th call issued, either
the assigned id or the caught failure.
-/

/-- One HTTP call through the services module. -/
inductive ApiCall where
  | createSurvey (titulo : String) (descricao : Option String) (ativo : Bool)
      (dataValidade : Option String)
  | createQuestion (texto : String) (ordem : Nat) (surveyId : Nat)
  | createOption (texto : String) (ativo : Bool) (questionId : Nat)
  | updateSurvey (id : Nat)
  | deleteSurvey (id : Nat)
  | deleteQuestion (id : Nat)
  | deleteOption (id : Nat)
deriving Repr, DecidableEq

/-- Whether a call is one of the three create endpoints. -/
def ApiCall.isCreate : ApiCall → Bool
  | .createSurvey .. => true
  | .createQuestion .. => true
  | .createOption .. => true
  | _ => false

/-- The payload field `descricao.trim() || null` of the survey create call. -/
def surveyPayloadDescricao (s : PageState) : Option String :=
  if (jsTrim s.descricao) = "" then none else some (jsTrim s.descricao)

/-- The payload field `dataValidade ? new Date(dataValidade).toISOString() : null`.  The
`Date` → ISO conversion is performed by the host environment, outside this
repository; the raw field value stands in for the converted timestamp. -/
def surveyPayloadValidade (s : PageState) : Option String :=
  if s.dataValidade = "" then none else some s.dataValidade

/-- The three early-return validation checks of `handleSubmit`, in source
order: empty trimmed title, a question with empty trimmed text, a question
over the active-option cap.  `none` means validation passed. -/
def validationError (s : PageState) : Option String :=
  if (jsTrim s.titulo) = "" then some "Informe um título para a pesquisa."
  else if !s.questions.all (fun q => (jsTrim q.texto) != "") then
    some "Todas as perguntas precisam de um texto."
  else if s.questions.any
      (fun q => decide (MAX_ACTIVE_OPTIONS < countActiveOptions q.options)) then
    some ("Cada pergunta pode ter no máximo " ++ toString MAX_ACTIVE_OPTIONS ++ " opções ativas.")
  else none

/-- The inner option loop of `handleSubmit` for one question: options with
empty trimmed text are skipped (`continue`); each other option issues one
`optionApi.create` with trimmed text, its active flag and the question's
backend id.  Returns the calls issued, the next call index, and the first
failure, if any. -/
def runOptions (oracle : Nat → Except JsError Nat) (k : Nat) (questionId : Nat) :
    List DraftOption → List ApiCall × Nat × Option JsError
  | [] => ([], k, none)
  | o :: rest =>
      if (jsTrim o.texto) = "" then runOptions oracle k questionId rest
      else
        let call := ApiCall.createOption (jsTrim o.texto) o.ativo questionId
        match oracle k with
        | .error e => ([call], k + 1, some e)
        | .ok _ =>
            let r := runOptions oracle (k + 1) questionId rest
            (call :: r.1, r.2.1, r.2.2)

/-- The outer question loop of `handleSubmit`: each question issues one
`questionApi.create` (trimmed text, its order, the survey's backend id); on
success its options run with the freshly assigned question id, then the
remaining questions. -/
def runQuestions (oracle : Nat → Except JsError Nat) (k : Nat) (surveyId : Nat) :
    List DraftQuestion → List ApiCall × Nat × Option JsError
  | [] => ([], k, none)
  | q :: rest =>
      let call := ApiCall.createQuestion (jsTrim q.texto) q.ordem surveyId
      match oracle k with
      | .error e => ([call], k + 1, some e)
      | .ok qid =>
          let r1 := runOptions oracle (k + 1) qid q.options
          match r1.2.2 with
          | some e => (call :: r1.1, r1.2.1, some e)
          | none =>
              let r2 := runQuestions oracle r1.2.1 surveyId rest
              (call :: r1.1 ++ r2.1, r2.2.1, r2.2.2)

/-- Model of `handleSubmit`: clear error/success, validate (early return keeps the
rest of the state untouched), then create the survey and walk the question
tree; a failure anywhere surfaces `parseApiError` of the caught value and
stops.  Returns the new state, the calls issued, and the survey id passed to
`navigate` on success (`none` when no navigation happens). -/
def handleSubmit (oracle : Nat → Except JsError Nat) (s : PageState) :
    PageState × List ApiCall × Option Nat :=
  let s0 := { s with error := none, success := none }
  match validationError s with
  | some msg => ({ s0 with error := some msg }, [], none)
  | none =>
      let surveyCall :=
        ApiCall.createSurvey (jsTrim s.titulo) (surveyPayloadDescricao s) s.ativo
          (surveyPayloadValidade s)
      match oracle 0 with
      | .error e => ({ s0 with error := some (parseApiError e), isSaving := false },
          [surveyCall], none)
      | .ok surveyId =>
          let r := runQuestions oracle 1 surveyId s.questions
          match r.2.2 with
          | some e => ({ s0 with error := some (parseApiError e), isSaving := false },
              surveyCall :: r.1, none)
          | none => ({ s0 with success := some "Pesquisa criada com sucesso.", isSaving := false },
              surveyCall :: r.1, some surveyId)

/-- The backend id assigned to each question during an all-successful
submission: the survey call is call `0`, the first question call is call `k`,
and each question advances the call counter by one plus its number of
non-skipped options.  (Spec §4.2: each option create carries "the
backend-assigned question identifier" of its question.) -/
def assignedQids (idOf : Nat → Nat) (k : Nat) : List DraftQuestion → List Nat
  | [] => []
  | q :: rest =>
      idOf k ::
        assignedQids idOf (k + 1 + (q.options.filter (fun o => (jsTrim o.texto) != "")).length) rest

/-!
## Concrete fixtures used to instantiate the theorems
-/

/-- A question with three options, all with non-empty texts. -/
def qThreeA : DraftQuestion :=
  { id := 10, texto := "Q1", ordem := 1
    options := [⟨11, "A", true⟩, ⟨12, "B", true⟩, ⟨13, "C", false⟩] }

/-- A second question with three options, all with non-empty texts. -/
def qThreeB : DraftQuestion :=
  { id := 20, texto := "Q2", ordem := 2
    options := [⟨21, "D", true⟩, ⟨22, "E", true⟩, ⟨23, "F", true⟩] }

/-- A valid two-question draft with three non-empty options each. -/
def draftTwoByThree : PageState :=
  { titulo := "T", descricao := "", ativo := true, dataValidade := ""
    questions := [qThreeA, qThreeB], error := none, success := none
    isSaving := false, nextId := 30 }

/-- A question already at the active-option cap, plus one inactive option. -/
def qAtCap : DraftQuestion :=
  { id := 0, texto := "q", ordem := 1
    options := [⟨1, "a", true⟩, ⟨2, "b", true⟩, ⟨3, "c", true⟩, ⟨4, "d", true⟩,
      ⟨5, "e", true⟩, ⟨6, "f", false⟩] }

/-- A one-question state whose question is at the active-option cap. -/
def sAtCap : PageState :=
  { titulo := "t", descricao := "", ativo := true, dataValidade := ""
    questions := [qAtCap], error := none, success := none
    isSaving := false, nextId := 7 }

/-- A backend that answers the first call and fails the second. -/
def failSecondOracle : Nat → Except JsError Nat :=
  fun j => if j = 0 then Except.ok 7 else Except.error (JsError.jsError "boom")

/-- The initial question after one `handleAddOption` at the cap: the five
initial active options plus one freshly added inactive option. -/
def qSixAfterAdd : DraftQuestion :=
  { id := 0, texto := "", ordem := 1
    options := [⟨1, "", true⟩, ⟨2, "", true⟩, ⟨3, "", true⟩, ⟨4, "", true⟩, ⟨5, "", true⟩,
      ⟨6, "", false⟩] }

/-- A question with a single option. -/
def qOneOption : DraftQuestion :=
  { id := 9, texto := "s", ordem := 1, options := [⟨1, "x", true⟩] }

/-!
## The builder invariant

Well-formedness of a reachable draft: at least one question; every question
has at least one option, at most `MAX_ACTIVE_OPTIONS` active options,
duplicate-free option ids, and only ids below the generator counter.
-/

def QuestionWf (n : Nat) (q : DraftQuestion) : Prop :=
  q.options ≠ [] ∧ countActiveOptions q.options ≤ MAX_ACTIVE_OPTIONS ∧
    (q.options.map (fun o => o.id)).Nodup ∧ (∀ o ∈ q.options, o.id < n) ∧ q.id < n

def StateWf (s : PageState) : Prop :=
  s.questions ≠ [] ∧ ∀ q ∈ s.questions, QuestionWf s.nextId q

/-- Total number of calls the question loop issues when every call succeeds:
one per question plus one per option with non-empty trimmed text. -/
def questionCallCount (qs : List DraftQuestion) : Nat :=
  (qs.map (fun q => 1 + (q.options.filter (fun o => (jsTrim o.texto) != "")).length)).sum

/-!
## Helper lemmas about lists and active-option counts
-/

theorem map_eq_self_of {α : Type} (l : List α) (f : α → α) (h : ∀ x ∈ l, f x = x) :
    l.map f = l :=
  (List.map_congr_left h).trans (List.map_id l)

theorem countActiveOptions_cons (o : DraftOption) (l : List DraftOption) :
    countActiveOptions (o :: l) = (if o.ativo then 1 else 0) + countActiveOptions l := by
  simp only [countActiveOptions, List.filter]
  cases h : o.ativo <;> simp [h] <;> omega

theorem countActiveOptions_append_singleton (l : List DraftOption) (o : DraftOption) :
    countActiveOptions (l ++ [o]) = countActiveOptions l + (if o.ativo then 1 else 0) := by
  simp only [countActiveOptions, List.filter_append, List.length_append]
  cases h : o.ativo <;> simp [List.filter, h]

theorem countActiveOptions_filter_le (l : List DraftOption) (p : DraftOption → Bool) :
    countActiveOptions (l.filter p) ≤ countActiveOptions l := by
  unfold countActiveOptions
  exact List.Sublist.length_le ((List.filter_sublist l).filter _)

theorem one_le_countActive_of_mem {l : List DraftOption} {o : DraftOption}
    (hm : o ∈ l) (ha : o.ativo = true) : 1 ≤ countActiveOptions l := by
  have hmem : o ∈ l.filter (fun o => o.ativo) := List.mem_filter.mpr ⟨hm, ha⟩
  have := List.length_pos.mpr (List.ne_nil_of_mem hmem)
  exact this

theorem ids_map_update (l : List DraftOption) (oid : Nat) (u : OptionUpdates) :
    (l.map (fun o => if o.id = oid then applyOptionUpdates u o else o)).map (fun o => o.id) =
      l.map (fun o => o.id) := by
  rw [List.map_map]
  apply List.map_congr_left
  intro o _
  by_cases h : o.id = oid <;> simp [h, applyOptionUpdates]

/-- Updating one option (found by `find?`) through the spread changes the
active count by removing the target's old contribution and adding its new
one; option ids must be duplicate-free so that exactly one option matches. -/
theorem countActive_map_update (oid : Nat) (u : OptionUpdates) :
    ∀ (l : List DraftOption), ((l.map (fun o => o.id)).Nodup) →
      ∀ t, l.find? (fun o => o.id == oid) = some t →
      countActiveOptions (l.map (fun o => if o.id = oid then applyOptionUpdates u o else o)) =
        countActiveOptions l - (if t.ativo then 1 else 0) +
          (if (applyOptionUpdates u t).ativo then 1 else 0)
  | [], _, t, hf => by simp at hf
  | o :: rest, hN, t, hf => by
      rw [List.map_cons, List.nodup_cons] at hN
      by_cases h : o.id = oid
      · have hfo : (o :: rest).find? (fun o => o.id == oid) = some o :=
          List.find?_cons_of_pos _ (by simp [h])
        rw [hfo] at hf
        injection hf with ht
        subst ht
        have hrest : rest.map (fun o' => if o'.id = oid then applyOptionUpdates u o' else o') =
            rest := by
          apply map_eq_self_of
          intro x hx
          have hxne : x.id ≠ oid := by
            intro hEq
            have hxm : x.id ∈ rest.map (fun o => o.id) := List.mem_map_of_mem _ hx
            rw [hEq, ← h] at hxm
            exact hN.1 hxm
          simp [hxne]
        rw [List.map_cons, if_pos h, hrest, countActiveOptions_cons, countActiveOptions_cons]
        cases h1 : o.ativo <;> cases h2 : (applyOptionUpdates u o).ativo <;>
          simp [h1, h2] <;> omega
      · have hfo : (o :: rest).find? (fun o => o.id == oid) = rest.find? (fun o => o.id == oid) :=
          List.find?_cons_of_neg _ (by simp [h])
        rw [hfo] at hf
        have ih := countActive_map_update oid u rest hN.2 t hf
        have htmem : t ∈ rest := List.mem_of_find?_eq_some hf
        rw [List.map_cons, if_neg h, countActiveOptions_cons, countActiveOptions_cons, ih]
        have hx : t.ativo = true → 1 ≤ countActiveOptions rest := fun ha =>
          one_le_countActive_of_mem htmem ha
        cases h1 : t.ativo <;> cases h2 : (applyOptionUpdates u t).ativo <;>
          cases h3 : o.ativo <;> simp [h1, h2, h3] at hx ⊢ <;> omega

theorem QuestionWf.mono {n m : Nat} (h : n ≤ m) {q : DraftQuestion} (hw : QuestionWf n q) :
    QuestionWf m q :=
  ⟨hw.1, hw.2.1, hw.2.2.1, fun o ho => lt_of_lt_of_le (hw.2.2.2.1 o ho) h,
    lt_of_lt_of_le hw.2.2.2.2 h⟩

theorem wf_createQuestionDraft (base ordem : Nat) :
    QuestionWf (base + 6) (createQuestionDraft base ordem) := by
  refine ⟨?_, ?_, ?_, ?_, ?_⟩
  · simp [createQuestionDraft]
  · simp [createQuestionDraft, createOptionDraft, countActiveOptions, List.filter,
      MAX_ACTIVE_OPTIONS]
  · simp [createQuestionDraft, createOptionDraft]
    try omega
  · intro o ho
    simp [createQuestionDraft, createOptionDraft] at ho
    rcases ho with h | h | h | h | h <;> subst h <;> simp <;> try omega
  · simp [createQuestionDraft]

theorem wf_buildTemplateQuestion (base ordem : Nat) (texto : String) :
    QuestionWf (base + 6) (buildTemplateQuestion base ordem texto) := by
  refine ⟨?_, ?_, ?_, ?_, ?_⟩
  · simp [buildTemplateQuestion, TEMPLATE_OPTIONS]
  · simp [buildTemplateQuestion, TEMPLATE_OPTIONS, countActiveOptions, List.filter,
      MAX_ACTIVE_OPTIONS]
  · simp [buildTemplateQuestion, TEMPLATE_OPTIONS]
    try omega
  · intro o ho
    simp [buildTemplateQuestion, TEMPLATE_OPTIONS] at ho
    rcases ho with h | h | h | h | h <;> subst h <;> simp <;> try omega
  · simp [buildTemplateQuestion]

theorem stateWf_initState : StateWf initState := by
  constructor
  · simp [initState]
  · intro q hq
    simp [initState] at hq
    subst hq
    exact wf_createQuestionDraft 0 1

theorem stateWf_handleAddQuestion {s : PageState} (h : StateWf s) :
    StateWf (handleAddQuestion s) := by
  constructor
  · simp [handleAddQuestion]
  · intro q hq
    simp only [handleAddQuestion, List.mem_append, List.mem_singleton] at hq
    rcases hq with hq | hq
    · exact (h.2 q hq).mono (Nat.le_add_right s.nextId 6)
    · subst hq
      exact wf_createQuestionDraft s.nextId (s.questions.length + 1)

theorem handleRemoveQuestion_questions (id : Nat) (s : PageState) :
    (handleRemoveQuestion id s).questions =
      if (s.questions.filter (fun q => q.id ≠ id)).isEmpty then s.questions
      else s.questions.filter (fun q => q.id ≠ id) := rfl

theorem stateWf_handleRemoveQuestion {s : PageState} (id : Nat) (h : StateWf s) :
    StateWf (handleRemoveQuestion id s) := by
  have hn : (handleRemoveQuestion id s).nextId = s.nextId := rfl
  constructor
  · rw [handleRemoveQuestion_questions]
    split
    · exact h.1
    · next he =>
        intro hc
        rw [hc] at he
        simp at he
  · intro q hmem
    rw [handleRemoveQuestion_questions] at hmem
    rw [hn]
    split at hmem
    · exact h.2 q hmem
    · exact h.2 q (List.mem_of_mem_filter hmem)

theorem stateWf_updateQuestion {s : PageState} (id : Nat) (u : QuestionUpdates)
    (h : StateWf s) : StateWf (updateQuestion id u s) := by
  constructor
  · simp only [updateQuestion]
    intro hc
    exact h.1 (List.map_eq_nil.mp hc)
  · intro q hq
    simp only [updateQuestion, List.mem_map] at hq
    obtain ⟨x, hx, hxq⟩ := hq
    have hw := h.2 x hx
    by_cases hid : x.id = id
    · rw [if_pos hid] at hxq
      subst hxq
      exact ⟨hw.1, hw.2.1, hw.2.2.1, hw.2.2.2.1, hw.2.2.2.2⟩
    · rw [if_neg hid] at hxq
      subst hxq
      exact hw

theorem nodup_append_fresh {l : List Nat} {a : Nat} (h : l.Nodup) (ha : a ∉ l) :
    (l ++ [a]).Nodup := by
  simp [List.nodup_append, h, ha]

theorem stateWf_handleAddOption {s : PageState} (questionId : Nat) (h : StateWf s) :
    StateWf (handleAddOption questionId s) := by
  have hnext : s.nextId ≤ (handleAddOption questionId s).nextId := by
    simp only [handleAddOption]
    split <;> omega
  constructor
  · simp only [handleAddOption]
    intro hc
    exact h.1 (List.map_eq_nil.mp hc)
  · intro q hq
    simp only [handleAddOption, List.mem_map] at hq
    obtain ⟨x, hx, hxq⟩ := hq
    have hw := h.2 x hx
    by_cases hid : x.id = questionId
    · have hhit : (s.questions.any (fun q => q.id == questionId)) = true :=
        List.any_eq_true.mpr ⟨x, hx, by simp [hid]⟩
      have hn1 : (handleAddOption questionId s).nextId = s.nextId + 1 := by
        simp [handleAddOption, hhit]
      rw [hn1]
      unfold addOptionStep at hxq
      rw [if_pos hid] at hxq
      subst hxq
      refine ⟨by simp, ?_, ?_, ?_, by exact Nat.lt_succ_of_lt hw.2.2.2.2⟩
      · rw [countActiveOptions_append_singleton]
        rcases Nat.lt_or_ge (countActiveOptions x.options) MAX_ACTIVE_OPTIONS with hc | hc
        · simp [createOptionDraft, hc]
          omega
        · have : ¬ countActiveOptions x.options < MAX_ACTIVE_OPTIONS := by omega
          simp [createOptionDraft, this]
          exact hw.2.1
      · simp only [List.map_append]
        apply nodup_append_fresh hw.2.2.1
        intro hmem
        simp only [List.mem_map] at hmem
        obtain ⟨o, ho, hoid⟩ := hmem
        have := hw.2.2.2.1 o ho
        simp [createOptionDraft] at hoid
        omega
      · intro o ho
        simp only [List.mem_append, List.mem_singleton] at ho
        rcases ho with ho | ho
        · exact Nat.lt_succ_of_lt (hw.2.2.2.1 o ho)
        · subst ho
          simp [createOptionDraft]
    · unfold addOptionStep at hxq
      rw [if_neg hid] at hxq
      subst hxq
      exact hw.mono hnext

theorem stateWf_handleRemoveOption {s : PageState} (questionId optionId : Nat)
    (h : StateWf s) : StateWf (handleRemoveOption questionId optionId s) := by
  constructor
  · simp only [handleRemoveOption]
    intro hc
    exact h.1 (List.map_eq_nil.mp hc)
  · intro q hq
    simp only [handleRemoveOption, List.mem_map] at hq
    obtain ⟨x, hx, hxq⟩ := hq
    have hw := h.2 x hx
    unfold removeOptionStep at hxq
    by_cases hid : x.id = questionId
    · rw [if_pos hid] at hxq
      by_cases hlen : 1 < x.options.length
      · rw [if_pos hlen] at hxq
        subst hxq
        have hsub : List.Sublist (x.options.filter (fun o => o.id ≠ optionId)) x.options :=
          List.filter_sublist x.options
        refine ⟨?_, ?_, ?_, ?_, hw.2.2.2.2⟩
        · -- at least two options with duplicate-free ids: at most one is removed
          intro hc
          have hall := List.filter_eq_nil_iff.mp hc
          match x, hw, hlen, hall with
          | ⟨xi, xt, xo, o1 :: o2 :: rest⟩, hw, hlen, hall =>
            have h1 : o1.id = optionId := by
              have := hall o1 (by simp)
              simpa using this
            have h2 : o2.id = optionId := by
              have := hall o2 (by simp)
              simpa using this
            have hnd := hw.2.2.1
            simp only [List.map_cons, List.nodup_cons, List.mem_cons, List.mem_map] at hnd
            push_neg at hnd
            exact hnd.1.1 (h1.trans h2.symm)
        · exact le_trans (countActiveOptions_filter_le _ _) hw.2.1
        · exact List.Sublist.nodup (hsub.map _) hw.2.2.1
        · intro o ho
          exact hw.2.2.2.1 o (List.mem_of_mem_filter ho)
      · rw [if_neg hlen] at hxq
        subst hxq
        exact hw
    · rw [if_neg hid] at hxq
      subst hxq
      exact hw

theorem stateWf_updateOption {s : PageState} (questionId optionId : Nat) (u : OptionUpdates)
    (h : StateWf s) : StateWf (updateOption questionId optionId u s) := by
  constructor
  · simp only [updateOption]
    intro hc
    exact h.1 (List.map_eq_nil.mp hc)
  · intro q hq
    simp only [updateOption, List.mem_map] at hq
    obtain ⟨x, hx, hxq⟩ := hq
    have hw := h.2 x hx
    by_cases hid : x.id = questionId
    · rw [if_pos hid] at hxq
      unfold updateOptionStep at hxq
      rcases hfind : x.options.find? (fun o => o.id == optionId) with _ | t
      · rw [hfind] at hxq
        subst hxq
        exact hw
      · rw [hfind] at hxq
        by_cases hrej : optionToggleRejected optionId u x = true
        · rw [if_pos hrej] at hxq
          subst hxq
          exact hw
        · rw [if_neg hrej] at hxq
          subst hxq
          have hcount := countActive_map_update optionId u x.options hw.2.2.1 t hfind
          refine ⟨?_, ?_, ?_, ?_, hw.2.2.2.2⟩
          · intro hc
            exact hw.1 (List.map_eq_nil.mp hc)
          · rw [hcount]
            -- case analysis on the requested `ativo` update
            unfold optionToggleRejected at hrej
            rw [hfind] at hrej
            have htmem := List.mem_of_find?_eq_some hfind
            have hle := hw.2.1
            rcases hu : u.ativo with _ | b
            · have : (applyOptionUpdates u t).ativo = t.ativo := by
                simp [applyOptionUpdates, hu]
              rw [this]
              have h1 : t.ativo = true → 1 ≤ countActiveOptions x.options := fun ha =>
                one_le_countActive_of_mem htmem ha
              cases ht : t.ativo <;> simp [ht] at h1 ⊢ <;> omega
            · cases b
              · have : (applyOptionUpdates u t).ativo = false := by
                  simp [applyOptionUpdates, hu]
                rw [this]
                have := hw.2.1
                cases ht : t.ativo <;> simp [ht] <;> omega
              · have hna : (applyOptionUpdates u t).ativo = true := by
                  simp [applyOptionUpdates, hu]
                rw [hna]
                cases ht : t.ativo
                · -- an inactive target was activated: the guard ensured room
                  have : ¬ (MAX_ACTIVE_OPTIONS ≤ countActiveOptions x.options) := by
                    intro hge
                    apply hrej
                    simp [hu, ht, hge]
                  simp [ht]
                  omega
                · have h1 := one_le_countActive_of_mem htmem ht
                  have := hw.2.1
                  simp [ht]
                  omega
          · rw [ids_map_update]
            exact hw.2.2.1
          · intro o ho
            simp only [List.mem_map] at ho
            obtain ⟨o0, ho0, hoo⟩ := ho
            have hb := hw.2.2.2.1 o0 ho0
            by_cases ho0id : o0.id = optionId
            · rw [if_pos ho0id] at hoo
              subst hoo
              simpa [applyOptionUpdates] using hb
            · rw [if_neg ho0id] at hoo
              subst hoo
              exact hb
    · rw [if_neg hid] at hxq
      subst hxq
      exact hw

theorem stateWf_resetDraft {s : PageState} (h : StateWf s) : StateWf (resetDraft s) := by
  constructor
  · simp [resetDraft]
  · intro q hq
    simp [resetDraft] at hq
    subst hq
    exact wf_createQuestionDraft s.nextId 1

theorem stateWf_loadTemplate {s : PageState} (h : StateWf s) : StateWf (loadTemplate s) := by
  constructor
  · simp [loadTemplate, TEMPLATE_QUESTIONS]
  · intro q hq
    simp only [loadTemplate, List.mem_map] at hq
    obtain ⟨p, hp, hpq⟩ := hq
    have hj : p.2 ∈ List.range TEMPLATE_QUESTIONS.length := (List.of_mem_zip hp).2
    have hj10 : p.2 < TEMPLATE_QUESTIONS.length := List.mem_range.mp hj
    have hwf := wf_buildTemplateQuestion (s.nextId + 6 * p.2) (p.2 + 1) p.1
    rw [hpq] at hwf
    apply hwf.mono
    simp only [loadTemplate]
    have : TEMPLATE_QUESTIONS.length = 10 := by rfl
    omega

theorem stateWf_applyOp (op : Op) {s : PageState} (h : StateWf s) : StateWf (applyOp op s) := by
  cases op with
  | addQuestion => exact stateWf_handleAddQuestion h
  | removeQuestion id => exact stateWf_handleRemoveQuestion id h
  | updateQuestion id u => exact stateWf_updateQuestion id u h
  | addOption qid => exact stateWf_handleAddOption qid h
  | removeOption qid oid => exact stateWf_handleRemoveOption qid oid h
  | updateOption qid oid u => exact stateWf_updateOption qid oid u h
  | reset => exact stateWf_resetDraft h
  | loadTemplate => exact stateWf_loadTemplate h

theorem stateWf_applyOps (ops : List Op) : ∀ {s : PageState}, StateWf s →
    StateWf (applyOps ops s) := by
  induction ops with
  | nil => intro s h; exact h
  | cons op rest ih =>
      intro s h
      exact ih (stateWf_applyOp op h)

/-!
## Submission-pipeline lemmas
-/

theorem runOptions_ok (idOf : Nat → Nat) :
    ∀ (opts : List DraftOption) (k questionId : Nat),
      runOptions (fun j => Except.ok (idOf j)) k questionId opts =
        ((opts.filter (fun o => (jsTrim o.texto) != "")).map
            (fun o => ApiCall.createOption (jsTrim o.texto) o.ativo questionId),
          k + (opts.filter (fun o => (jsTrim o.texto) != "")).length, none)
  | [], k, qid => by simp [runOptions]
  | o :: rest, k, qid => by
      by_cases h : (jsTrim o.texto) = ""
      · simp only [runOptions, if_pos h]
        rw [runOptions_ok idOf rest k qid]
        simp [List.filter_cons, h]
      · simp only [runOptions, if_neg h]
        rw [runOptions_ok idOf rest (k + 1) qid]
        simp [List.filter_cons, h]
        omega

theorem runQuestions_ok (idOf : Nat → Nat) :
    ∀ (qs : List DraftQuestion) (k surveyId : Nat),
      runQuestions (fun j => Except.ok (idOf j)) k surveyId qs =
        (((qs.zip (assignedQids idOf k qs)).map
            (fun p => ApiCall.createQuestion (jsTrim p.1.texto) p.1.ordem surveyId
              :: (p.1.options.filter (fun o => (jsTrim o.texto) != "")).map
                (fun o => ApiCall.createOption (jsTrim o.texto) o.ativo p.2))).flatten,
          k + questionCallCount qs, none)
  | [], k, sid => by simp [runQuestions, assignedQids, questionCallCount]
  | q :: rest, k, sid => by
      simp only [runQuestions]
      rw [runOptions_ok idOf q.options (k + 1) (idOf k)]
      simp only []
      rw [runQuestions_ok idOf rest
        (k + 1 + (q.options.filter (fun o => (jsTrim o.texto) != "")).length) sid]
      simp only [assignedQids, List.zip_cons_cons, List.map_cons, List.flatten_cons,
        questionCallCount, List.map_cons, List.sum_cons, Prod.mk.injEq, true_and, and_true]
      omega

theorem runOptions_endIndex (oracle : Nat → Except JsError Nat) :
    ∀ (opts : List DraftOption) (k questionId : Nat),
      (runOptions oracle k questionId opts).2.1 =
        k + (runOptions oracle k questionId opts).1.length
  | [], k, qid => by simp [runOptions]
  | o :: rest, k, qid => by
      by_cases h : (jsTrim o.texto) = ""
      · simp only [runOptions, if_pos h]
        exact runOptions_endIndex oracle rest k qid
      · cases ho : oracle k with
        | error e => simp [runOptions, if_neg h, ho]
        | ok n =>
            have ih := runOptions_endIndex oracle rest (k + 1) qid
            rcases hr : runOptions oracle (k + 1) qid rest with ⟨calls, k1, e1⟩
            rw [hr] at ih
            simp only at ih
            simp [runOptions, if_neg h, ho, hr]
            omega

theorem runQuestions_endIndex (oracle : Nat → Except JsError Nat) :
    ∀ (qs : List DraftQuestion) (k surveyId : Nat),
      (runQuestions oracle k surveyId qs).2.1 =
        k + (runQuestions oracle k surveyId qs).1.length
  | [], k, sid => by simp [runQuestions]
  | q :: rest, k, sid => by
      cases ho : oracle k with
      | error e => simp [runQuestions, ho]
      | ok qid =>
          have ih1 := runOptions_endIndex oracle q.options (k + 1) qid
          rcases hr1 : runOptions oracle (k + 1) qid q.options with ⟨calls1, k1, e1⟩
          rw [hr1] at ih1
          simp only at ih1
          cases e1 with
          | some e =>
              simp [runQuestions, ho, hr1]
              omega
          | none =>
              have ih2 := runQuestions_endIndex oracle rest k1 sid
              rcases hr2 : runQuestions oracle k1 sid rest with ⟨calls2, k2, e2⟩
              rw [hr2] at ih2
              simp only at ih2
              simp [runQuestions, ho, hr1, hr2]
              omega

theorem runOptions_all_create (oracle : Nat → Except JsError Nat) :
    ∀ (opts : List DraftOption) (k questionId : Nat) (c : ApiCall),
      c ∈ (runOptions oracle k questionId opts).1 → c.isCreate = true
  | [], k, qid, c => by simp [runOptions]
  | o :: rest, k, qid, c => by
      by_cases h : (jsTrim o.texto) = ""
      · simp only [runOptions, if_pos h]
        exact runOptions_all_create oracle rest k qid c
      · cases ho : oracle k with
        | error e =>
            simp [runOptions, if_neg h, ho]
            intro hc
            subst hc
            rfl
        | ok n =>
            have ih := runOptions_all_create oracle rest (k + 1) qid c
            rcases hr : runOptions oracle (k + 1) qid rest with ⟨calls, k1, e1⟩
            rw [hr] at ih
            simp only at ih
            simp only [runOptions, if_neg h, ho, hr]
            intro hc
            simp only [List.mem_cons] at hc
            rcases hc with hc | hc
            · subst hc; rfl
            · exact ih hc

theorem runQuestions_all_create (oracle : Nat → Except JsError Nat) :
    ∀ (qs : List DraftQuestion) (k surveyId : Nat) (c : ApiCall),
      c ∈ (runQuestions oracle k surveyId qs).1 → c.isCreate = true
  | [], k, sid, c => by simp [runQuestions]
  | q :: rest, k, sid, c => by
      cases ho : oracle k with
      | error e =>
          simp [runQuestions, ho]
          intro hc
          subst hc
          rfl
      | ok qid =>
          have ih1 := runOptions_all_create oracle q.options (k + 1) qid c
          rcases hr1 : runOptions oracle (k + 1) qid q.options with ⟨calls1, k1, e1⟩
          rw [hr1] at ih1
          simp only at ih1
          cases e1 with
          | some e =>
              simp only [runQuestions, ho, hr1]
              intro hc
              simp only [List.mem_cons] at hc
              rcases hc with hc | hc
              · subst hc; rfl
              · exact ih1 hc
          | none =>
              have ih2 := runQuestions_all_create oracle rest k1 sid c
              rcases hr2 : runQuestions oracle k1 sid rest with ⟨calls2, k2, e2⟩
              rw [hr2] at ih2
              simp only at ih2
              simp only [runQuestions, ho, hr1, hr2]
              intro hc
              simp only [List.mem_cons, List.mem_append] at hc
              rcases hc with (hc | hc) | hc
              · subst hc; rfl
              · exact ih1 hc
              · exact ih2 hc

theorem runOptions_stop (oracle : Nat → Except JsError Nat) (k : Nat) (e : JsError)
    (hok : ∀ j, j < k → ∃ n, oracle j = Except.ok n) (herr : oracle k = Except.error e) :
    ∀ (opts : List DraftOption) (questionId k0 : Nat), k0 ≤ k →
      ((runOptions oracle k0 questionId opts).2.2 = none ∧
        (runOptions oracle k0 questionId opts).2.1 ≤ k) ∨
      ((runOptions oracle k0 questionId opts).2.2 = some e ∧
        (runOptions oracle k0 questionId opts).2.1 = k + 1)
  | [], qid, k0, hk0 => Or.inl ⟨rfl, hk0⟩
  | o :: rest, qid, k0, hk0 => by
      by_cases h : (jsTrim o.texto) = ""
      · simp only [runOptions, if_pos h]
        exact runOptions_stop oracle k e hok herr rest qid k0 hk0
      · rcases Nat.lt_or_ge k0 k with hlt | hge
        · obtain ⟨n, hn⟩ := hok k0 hlt
          have ih := runOptions_stop oracle k e hok herr rest qid (k0 + 1) (by omega)
          rcases hr : runOptions oracle (k0 + 1) qid rest with ⟨calls, k1, e1⟩
          rw [hr] at ih
          simp only at ih
          simp only [runOptions, if_neg h, hn, hr]
          exact ih
        · have hk0k : k0 = k := by omega
          subst hk0k
          simp only [runOptions, if_neg h, herr]
          exact Or.inr ⟨by trivial, by trivial⟩

theorem runQuestions_stop (oracle : Nat → Except JsError Nat) (k : Nat) (e : JsError)
    (hok : ∀ j, j < k → ∃ n, oracle j = Except.ok n) (herr : oracle k = Except.error e) :
    ∀ (qs : List DraftQuestion) (surveyId k0 : Nat), k0 ≤ k →
      ((runQuestions oracle k0 surveyId qs).2.2 = none ∧
        (runQuestions oracle k0 surveyId qs).2.1 ≤ k) ∨
      ((runQuestions oracle k0 surveyId qs).2.2 = some e ∧
        (runQuestions oracle k0 surveyId qs).2.1 = k + 1)
  | [], sid, k0, hk0 => Or.inl ⟨rfl, hk0⟩
  | q :: rest, sid, k0, hk0 => by
      rcases Nat.lt_or_ge k0 k with hlt | hge
      · obtain ⟨n, hn⟩ := hok k0 hlt
        have ho := runOptions_stop oracle k e hok herr q.options n (k0 + 1) (by omega)
        rcases hr1 : runOptions oracle (k0 + 1) n q.options with ⟨calls1, k1, e1⟩
        rw [hr1] at ho
        simp only at ho
        rcases ho with ⟨he1, hk1⟩ | ⟨he1, hk1⟩
        · subst he1
          have ih := runQuestions_stop oracle k e hok herr rest sid k1 hk1
          rcases hr2 : runQuestions oracle k1 sid rest with ⟨calls2, k2, e2⟩
          rw [hr2] at ih
          simp only at ih
          simp only [runQuestions, hn, hr1, hr2]
          exact ih
        · subst he1
          simp only [runQuestions, hn, hr1]
          exact Or.inr ⟨by trivial, hk1⟩
      · have hk0k : k0 = k := by omega
        subst hk0k
        simp only [runQuestions, herr]
        exact Or.inr ⟨by trivial, by trivial⟩

/-- Lemma: `handleSubmit` never touches the draft fields: title, description, active
flag, expiry, the question tree and the id counter are returned exactly as
they were, in every branch. -/
theorem handleSubmit_preserves_draft (oracle : Nat → Except JsError Nat) (s : PageState) :
    (handleSubmit oracle s).1.titulo = s.titulo ∧
    (handleSubmit oracle s).1.descricao = s.descricao ∧
    (handleSubmit oracle s).1.ativo = s.ativo ∧
    (handleSubmit oracle s).1.dataValidade = s.dataValidade ∧
    (handleSubmit oracle s).1.questions = s.questions ∧
    (handleSubmit oracle s).1.nextId = s.nextId := by
  rcases hv : validationError s with _ | msg
  · rcases ho : oracle 0 with e | sid
    · simp [handleSubmit, hv, ho]
    · rcases hr : runQuestions oracle 1 sid s.questions with ⟨calls, k2, e2⟩
      cases e2 <;> simp [handleSubmit, hv, ho, hr]
  · simp [handleSubmit, hv]

/-!
## The claims
-/

/-- C1: Active-option cap invariant.  Starting from the initial draft (one
question created by `createQuestionDraft`) and after every sequence of draft
mutation operations, every question has at most 5 options with
`ativo = true`. -/
theorem activeCap_invariant (ops : List Op) (q : DraftQuestion)
    (hq : q ∈ (applyOps ops initState).questions) :
    countActiveOptions q.options ≤ MAX_ACTIVE_OPTIONS :=
  ((stateWf_applyOps ops stateWf_initState).2 q hq).2.1

theorem activeCap_invariant_witness :
    qSixAfterAdd ∈ (applyOps [Op.addOption 0] initState).questions ∧
      countActiveOptions qSixAfterAdd.options ≤ MAX_ACTIVE_OPTIONS :=
  ⟨by decide, activeCap_invariant [Op.addOption 0] _ (by decide)⟩

/-- C7 counterexample: the claim says the cleared draft holds exactly one
question with exactly one option, but the `Limpar` handler rebuilds the
question with `createQuestionDraft`, which creates five options. -/
theorem reset_counterexample :
    (resetDraft initState).questions.map (fun q => q.options.length) ≠ [1] := by
  decide

/-- C7 (amended): the clear action restores the draft to its initial empty
state: empty title, empty description, `ativo = true`, empty expiry, and
exactly one question with empty text holding exactly five options, each with
empty text and `ativo = true`. -/
theorem reset_restores_initial (s : PageState) :
    (resetDraft s).titulo = "" ∧ (resetDraft s).descricao = "" ∧
    (resetDraft s).ativo = true ∧ (resetDraft s).dataValidade = "" ∧
    (resetDraft s).questions.map (fun q => q.texto) = [""] ∧
    (resetDraft s).questions.map (fun q => q.options.map (fun o => (o.texto, o.ativo))) =
      [[("", true), ("", true), ("", true), ("", true), ("", true)]] :=
  ⟨rfl, rfl, rfl, rfl, rfl, rfl⟩

/-- C8: Minimum-cardinality invariant: reachable drafts always have at least
one question and every question at least one option; removing the only
option of a question, or the only question of a draft, is a no-op. -/
theorem min_cardinality_invariant :
    (∀ ops : List Op, (applyOps ops initState).questions ≠ [] ∧
      ∀ q ∈ (applyOps ops initState).questions, q.options ≠ []) ∧
    (∀ (q : DraftQuestion) (questionId optionId : Nat), q.options.length = 1 →
      removeOptionStep questionId optionId q = q) ∧
    (∀ (s : PageState) (id : Nat), s.questions.length = 1 →
      (handleRemoveQuestion id s).questions = s.questions) := by
  refine ⟨?_, ?_, ?_⟩
  · intro ops
    have h := stateWf_applyOps ops stateWf_initState
    exact ⟨h.1, fun q hq => (h.2 q hq).1⟩
  · intro q qid oid hlen
    unfold removeOptionStep
    have hnot : ¬ (1 < q.options.length) := by omega
    by_cases h : q.id = qid
    · rw [if_pos h, if_neg hnot]
    · rw [if_neg h]
  · intro s id hlen
    rw [handleRemoveQuestion_questions]
    rcases hqs : s.questions with _ | ⟨x, rest⟩
    · rw [hqs] at hlen
      simp at hlen
    · rw [hqs] at hlen
      simp only [List.length_cons] at hlen
      have hrest : rest = [] := List.eq_nil_of_length_eq_zero (by omega)
      subst hrest
      by_cases hx : x.id = id <;> simp [List.filter, hx]

theorem min_cardinality_invariant_witness :
    ((applyOps [Op.removeQuestion 0, Op.removeOption 0 1] initState).questions ≠ [] ∧
      qOneOption.options.length = 1 ∧
      removeOptionStep 9 1 qOneOption = qOneOption) ∧
    (sAtCap.questions.length = 1 ∧
      (handleRemoveQuestion 0 sAtCap).questions = sAtCap.questions) :=
  ⟨⟨(min_cardinality_invariant.1 [Op.removeQuestion 0, Op.removeOption 0 1]).1,
    by decide,
    min_cardinality_invariant.2.1 qOneOption 9 1 (by decide)⟩,
   by decide,
   min_cardinality_invariant.2.2 sAtCap 0 (by decide)⟩

/-- C9: selecting the supermarket template replaces the draft, whatever its
prior state, with the template title and description, `ativo = true`, and
exactly 10 questions with `ordem` 1..10 in position order, each holding
exactly 5 options, all active, with the template texts. -/
theorem loadTemplate_semantics (s : PageState) :
    (loadTemplate s).titulo = TEMPLATE_TITLE ∧
    (loadTemplate s).descricao = TEMPLATE_DESCRIPTION ∧
    (loadTemplate s).ativo = true ∧
    (loadTemplate s).questions.length = 10 ∧
    (loadTemplate s).questions.map (fun q => q.ordem) = [1, 2, 3, 4, 5, 6, 7, 8, 9, 10] ∧
    (loadTemplate s).questions.map (fun q => q.texto) = TEMPLATE_QUESTIONS ∧
    (loadTemplate s).questions.map (fun q => q.options.map (fun o => o.texto)) =
      List.replicate 10 TEMPLATE_OPTIONS ∧
    (loadTemplate s).questions.map (fun q => q.options.map (fun o => o.ativo)) =
      List.replicate 10 (List.replicate 5 true) :=
  ⟨rfl, rfl, rfl, rfl, rfl, rfl, rfl, rfl⟩

/-- C5: `handleAddOption` always appends exactly one new option to the
addressed question (never rejected); the new option is active exactly when
the active count was below the cap, and reaching the cap surfaces a
non-fatal warning. -/
theorem addOption_semantics (s : PageState) (questionId i : Nat) (q : DraftQuestion)
    (hi : s.questions[i]? = some q) (hid : q.id = questionId)
    (huniq : ∀ q' ∈ s.questions, q'.id = questionId → q' = q) :
    (handleAddOption questionId s).questions.length = s.questions.length ∧
    (handleAddOption questionId s).questions[i]? =
      some { q with options := q.options ++
        [createOptionDraft s.nextId
          (decide (countActiveOptions q.options < MAX_ACTIVE_OPTIONS))] } ∧
    (MAX_ACTIVE_OPTIONS ≤ countActiveOptions q.options →
      (handleAddOption questionId s).error = some addOptionWarning) ∧
    (countActiveOptions q.options < MAX_ACTIVE_OPTIONS →
      (handleAddOption questionId s).error = s.error) := by
  have hq : (handleAddOption questionId s).questions =
      s.questions.map (addOptionStep questionId s.nextId) := rfl
  refine ⟨?_, ?_, ?_, ?_⟩
  · rw [hq, List.length_map]
  · rw [hq, List.getElem?_map, hi]
    simp [addOptionStep, hid]
  · intro hcap
    have hany : (s.questions.any
        (fun q' => q'.id == questionId &&
          decide (MAX_ACTIVE_OPTIONS ≤ countActiveOptions q'.options))) = true :=
      List.any_eq_true.mpr ⟨q, List.getElem?_mem hi, by simp [hid, hcap]⟩
    simp [handleAddOption, hany]
  · intro hlt
    have hany : (s.questions.any
        (fun q' => q'.id == questionId &&
          decide (MAX_ACTIVE_OPTIONS ≤ countActiveOptions q'.options))) = false := by
      by_contra hcon
      rw [Bool.not_eq_false] at hcon
      obtain ⟨q', hm, hp⟩ := List.any_eq_true.mp hcon
      simp only [Bool.and_eq_true, beq_iff_eq, decide_eq_true_eq] at hp
      have heq := huniq q' hm hp.1
      subst heq
      omega
    simp [handleAddOption, hany]

theorem addOption_semantics_witness :
    (sAtCap.questions[0]? = some qAtCap ∧ qAtCap.id = 0 ∧
      MAX_ACTIVE_OPTIONS ≤ countActiveOptions qAtCap.options) ∧
    ((handleAddOption 0 sAtCap).questions.length = sAtCap.questions.length ∧
      (handleAddOption 0 sAtCap).questions[0]? =
        some { qAtCap with options := qAtCap.options ++
          [createOptionDraft sAtCap.nextId
            (decide (countActiveOptions qAtCap.options < MAX_ACTIVE_OPTIONS))] } ∧
      (handleAddOption 0 sAtCap).error = some addOptionWarning) :=
  ⟨⟨by decide, by decide, by decide⟩, by
    have h := addOption_semantics sAtCap 0 0 qAtCap (by decide) (by decide) (by decide)
    exact ⟨h.1, h.2.1, h.2.2.1 (by decide)⟩⟩

/-- C4: `updateOption` with an `ativo` update: setting the flag to `false`
always succeeds (the spread is applied and no warning is raised); setting it
to `true` on an inactive option of a question already at the cap is rejected:
the whole draft is returned unchanged and the warning is surfaced. -/
theorem setOptionActive_semantics (s : PageState) (questionId optionId i : Nat)
    (q : DraftQuestion) (o : DraftOption) (u : OptionUpdates)
    (hi : s.questions[i]? = some q) (hqid : q.id = questionId)
    (huniq : ∀ q' ∈ s.questions, q'.id = questionId → q' = q)
    (hfind : q.options.find? (fun o' => o'.id == optionId) = some o) :
    (u.ativo = some false →
      (updateOption questionId optionId u s).questions[i]? =
        some
          { q with
            options := q.options.map
                (fun o' => if o'.id = optionId then applyOptionUpdates u o' else o') } ∧
      (updateOption questionId optionId u s).error = s.error) ∧
    (u.ativo = some true → o.ativo = false →
      MAX_ACTIVE_OPTIONS ≤ countActiveOptions q.options →
      updateOption questionId optionId u s = { s with error := some toggleWarning }) := by
  constructor
  · intro hu
    have hrej : optionToggleRejected optionId u q = false := by
      unfold optionToggleRejected
      rw [hfind]
      simp [hu]
    constructor
    · have hmap : (updateOption questionId optionId u s).questions =
          s.questions.map
            (fun q' => if q'.id = questionId then updateOptionStep optionId u q' else q') := rfl
      rw [hmap, List.getElem?_map, hi]
      simp only [Option.map_some']
      rw [if_pos hqid]
      unfold updateOptionStep
      rw [hfind, if_neg (by rw [hrej]; exact Bool.false_ne_true)]
    · have hany : (s.questions.any
          (fun q' => q'.id == questionId && optionToggleRejected optionId u q')) = false := by
        by_contra hcon
        rw [Bool.not_eq_false] at hcon
        obtain ⟨q', hm, hp⟩ := List.any_eq_true.mp hcon
        simp only [Bool.and_eq_true, beq_iff_eq] at hp
        have heq := huniq q' hm hp.1
        subst heq
        rw [hrej] at hp
        exact Bool.false_ne_true hp.2
      simp [updateOption, hany]
  · intro hu hoa hcap
    have hrej : optionToggleRejected optionId u q = true := by
      unfold optionToggleRejected
      rw [hfind]
      simp [hu, hoa, hcap]
    have hstep : updateOptionStep optionId u q = q := by
      unfold updateOptionStep
      rw [hfind, if_pos hrej]
    have hmapid : s.questions.map
        (fun q' => if q'.id = questionId then updateOptionStep optionId u q' else q') =
        s.questions := by
      apply map_eq_self_of
      intro x hx
      by_cases hxid : x.id = questionId
      · rw [if_pos hxid]
        have hxq := huniq x hx hxid
        rw [hxq]
        exact hstep
      · rw [if_neg hxid]
    have hany : (s.questions.any
        (fun q' => q'.id == questionId && optionToggleRejected optionId u q')) = true :=
      List.any_eq_true.mpr ⟨q, List.getElem?_mem hi, by simp [hqid, hrej]⟩
    unfold updateOption
    rw [hmapid, hany]
    simp

theorem setOptionActive_semantics_witness :
    (sAtCap.questions[0]? = some qAtCap ∧ qAtCap.id = 0 ∧
      qAtCap.options.find? (fun o' => o'.id == 6) = some (⟨6, "f", false⟩ : DraftOption) ∧
      (⟨6, "f", false⟩ : DraftOption).ativo = false ∧
      MAX_ACTIVE_OPTIONS ≤ countActiveOptions qAtCap.options) ∧
    updateOption 0 6 { ativo := some true } sAtCap = { sAtCap with error := some toggleWarning } :=
  ⟨⟨by decide, by decide, by decide, by decide, by decide⟩,
    (setOptionActive_semantics sAtCap 0 6 0 qAtCap ⟨6, "f", false⟩ { ativo := some true }
      (by decide) (by decide) (by decide) (by decide)).2 rfl (by decide) (by decide)⟩

theorem getElem?_map_frame {f : DraftQuestion → DraftQuestion} {l : List DraftQuestion}
    {i : Nat} {q : DraftQuestion} (hi : l[i]? = some q) (hfq : f q = q) :
    (l.map f)[i]? = some q := by
  rw [List.getElem?_map, hi, Option.map_some', hfq]

/-- C10: per-question mutations leave every question at a position holding a
different id untouched, `handleRemoveQuestion` neither alters nor invents
questions besides the addressed one, and mutations addressed at an id (or,
for `updateOption`, an option id) that does not exist return the whole state
unchanged. -/
theorem mutation_frame (s : PageState) (questionId optionId : Nat)
    (qu : QuestionUpdates) (ou : OptionUpdates) :
    ((updateQuestion questionId qu s).questions.length = s.questions.length ∧
      ∀ (i : Nat) (q : DraftQuestion), s.questions[i]? = some q → q.id ≠ questionId →
        (updateQuestion questionId qu s).questions[i]? = some q) ∧
    ((handleAddOption questionId s).questions.length = s.questions.length ∧
      ∀ (i : Nat) (q : DraftQuestion), s.questions[i]? = some q → q.id ≠ questionId →
        (handleAddOption questionId s).questions[i]? = some q) ∧
    ((handleRemoveOption questionId optionId s).questions.length = s.questions.length ∧
      ∀ (i : Nat) (q : DraftQuestion), s.questions[i]? = some q → q.id ≠ questionId →
        (handleRemoveOption questionId optionId s).questions[i]? = some q) ∧
    ((updateOption questionId optionId ou s).questions.length = s.questions.length ∧
      ∀ (i : Nat) (q : DraftQuestion), s.questions[i]? = some q → q.id ≠ questionId →
        (updateOption questionId optionId ou s).questions[i]? = some q) ∧
    ((∀ q ∈ (handleRemoveQuestion questionId s).questions, q ∈ s.questions) ∧
      ∀ q ∈ s.questions, q.id ≠ questionId →
        q ∈ (handleRemoveQuestion questionId s).questions) ∧
    ((∀ q ∈ s.questions, q.id ≠ questionId) →
      updateQuestion questionId qu s = s ∧ handleAddOption questionId s = s ∧
      handleRemoveOption questionId optionId s = s ∧
      updateOption questionId optionId ou s = s ∧ handleRemoveQuestion questionId s = s) ∧
    ((∀ q ∈ s.questions, q.id = questionId →
        q.options.find? (fun o => o.id == optionId) = none) →
      updateOption questionId optionId ou s = s) := by
  refine ⟨⟨by simp [updateQuestion], ?_⟩, ⟨by simp [handleAddOption], ?_⟩,
    ⟨by simp [handleRemoveOption], ?_⟩, ⟨by simp [updateOption], ?_⟩, ⟨?_, ?_⟩, ?_, ?_⟩
  · intro i q hi hne
    exact getElem?_map_frame hi (if_neg hne)
  · intro i q hi hne
    exact getElem?_map_frame hi (by unfold addOptionStep; rw [if_neg hne])
  · intro i q hi hne
    exact getElem?_map_frame hi (by unfold removeOptionStep; rw [if_neg hne])
  · intro i q hi hne
    exact getElem?_map_frame hi (if_neg hne)
  · intro q hq
    rw [handleRemoveQuestion_questions] at hq
    split at hq
    · exact hq
    · exact List.mem_of_mem_filter hq
  · intro q hq hne
    rw [handleRemoveQuestion_questions]
    split
    · exact hq
    · exact List.mem_filter.mpr ⟨hq, by simp [hne]⟩
  · intro h
    have hb : ∀ q' ∈ s.questions, (q'.id == questionId) = false := fun q' hm => by
      simp [h q' hm]
    have hany : (s.questions.any (fun q' => q'.id == questionId)) = false := by
      by_contra hcon
      rw [Bool.not_eq_false] at hcon
      obtain ⟨q', hm, hp⟩ := List.any_eq_true.mp hcon
      exact h q' hm (by simpa using hp)
    refine ⟨?_, ?_, ?_, ?_, ?_⟩
    · unfold updateQuestion
      rw [map_eq_self_of _ _ (fun x hx => if_neg (h x hx))]
    · have hany2 : (s.questions.any
          (fun q' => q'.id == questionId &&
            decide (MAX_ACTIVE_OPTIONS ≤ countActiveOptions q'.options))) = false := by
        by_contra hcon
        rw [Bool.not_eq_false] at hcon
        obtain ⟨q', hm, hp⟩ := List.any_eq_true.mp hcon
        simp only [Bool.and_eq_true, beq_iff_eq] at hp
        exact h q' hm hp.1
      unfold handleAddOption
      rw [map_eq_self_of _ _ (fun x hx => by unfold addOptionStep; rw [if_neg (h x hx)]),
        hany, hany2]
      simp
    · unfold handleRemoveOption
      rw [map_eq_self_of _ _ (fun x hx => by unfold removeOptionStep; rw [if_neg (h x hx)])]
    · have hany3 : (s.questions.any
          (fun q' => q'.id == questionId && optionToggleRejected optionId ou q')) = false := by
        by_contra hcon
        rw [Bool.not_eq_false] at hcon
        obtain ⟨q', hm, hp⟩ := List.any_eq_true.mp hcon
        simp only [Bool.and_eq_true, beq_iff_eq] at hp
        exact h q' hm hp.1
      unfold updateOption
      rw [map_eq_self_of _ _ (fun x hx => if_neg (h x hx)), hany3]
      simp
    · have hfilter : s.questions.filter (fun q => q.id ≠ questionId) = s.questions :=
        List.filter_eq_self.mpr (fun x hx => by simp [h x hx])
      unfold handleRemoveQuestion
      rw [hfilter]
      simp
  · intro h
    have hstep : ∀ x ∈ s.questions,
        (if x.id = questionId then updateOptionStep optionId ou x else x) = x := by
      intro x hx
      by_cases hxid : x.id = questionId
      · rw [if_pos hxid]
        unfold updateOptionStep
        rw [h x hx hxid]
      · rw [if_neg hxid]
    have hany4 : (s.questions.any
        (fun q' => q'.id == questionId && optionToggleRejected optionId ou q')) = false := by
      by_contra hcon
      rw [Bool.not_eq_false] at hcon
      obtain ⟨q', hm, hp⟩ := List.any_eq_true.mp hcon
      simp only [Bool.and_eq_true, beq_iff_eq] at hp
      have := hp.2
      unfold optionToggleRejected at this
      rw [h q' hm hp.1] at this
      exact Bool.false_ne_true this
    unfold updateOption
    rw [map_eq_self_of _ _ hstep, hany4]
    simp

theorem mutation_frame_witness :
    (sAtCap.questions[0]? = some qAtCap ∧ qAtCap.id ≠ 5) ∧
    (updateQuestion 5 { texto := some "x" } sAtCap).questions[0]? = some qAtCap ∧
    (∀ q ∈ sAtCap.questions, q.id ≠ 5) ∧
    updateQuestion 5 { texto := some "x" } sAtCap = sAtCap ∧
    handleAddOption 5 sAtCap = sAtCap ∧
    (∀ q ∈ sAtCap.questions, q.id = 0 →
      q.options.find? (fun o => o.id == 99) = none) ∧
    updateOption 0 99 { ativo := some true } sAtCap = sAtCap := by
  have h := mutation_frame sAtCap 5 99 { texto := some "x" } { ativo := some true }
  have h2 := mutation_frame sAtCap 0 99 { texto := some "x" } { ativo := some true }
  refine ⟨⟨by decide, by decide⟩, h.1.2 0 qAtCap (by decide) (by decide), by decide,
    (h.2.2.2.2.2.1 (by decide)).1, (h.2.2.2.2.2.1 (by decide)).2.1, by decide,
    h2.2.2.2.2.2.2 (by decide)⟩

/-- C2: for every draft passing validation, a fully successful submission
issues exactly one survey-create first, then, per question in draft order,
one question-create carrying the survey's returned id followed by one
option-create (carrying that question's returned id) for each option whose
trimmed text is non-empty, in draft order; empty-text options are skipped.
The backend's replies are `idOf`; `assignedQids` names the reply each
question-create receives. -/
theorem submit_success_trace (s : PageState) (idOf : Nat → Nat)
    (hval : validationError s = none) :
    (handleSubmit (fun j => Except.ok (idOf j)) s).2.1 =
      ApiCall.createSurvey (jsTrim s.titulo) (surveyPayloadDescricao s) s.ativo
          (surveyPayloadValidade s)
        :: ((s.questions.zip (assignedQids idOf 1 s.questions)).map
            (fun p => ApiCall.createQuestion (jsTrim p.1.texto) p.1.ordem (idOf 0)
              :: (p.1.options.filter (fun o => (jsTrim o.texto) != "")).map
                (fun o => ApiCall.createOption (jsTrim o.texto) o.ativo p.2))).flatten ∧
    (handleSubmit (fun j => Except.ok (idOf j)) s).2.2 = some (idOf 0) := by
  have hrq := runQuestions_ok idOf s.questions 1 (idOf 0)
  constructor
  · simp [handleSubmit, hval, hrq]
  · simp [handleSubmit, hval, hrq]

theorem submit_success_trace_witness :
    validationError draftTwoByThree = none ∧
    (handleSubmit (fun j => Except.ok j) draftTwoByThree).2.1 =
      ApiCall.createSurvey (jsTrim draftTwoByThree.titulo) (surveyPayloadDescricao draftTwoByThree)
          draftTwoByThree.ativo (surveyPayloadValidade draftTwoByThree)
        :: ((draftTwoByThree.questions.zip
              (assignedQids (fun j => j) 1 draftTwoByThree.questions)).map
            (fun p => ApiCall.createQuestion (jsTrim p.1.texto) p.1.ordem ((fun j => j) 0)
              :: (p.1.options.filter (fun o => (jsTrim o.texto) != "")).map
                (fun o => ApiCall.createOption (jsTrim o.texto) o.ativo p.2))).flatten ∧
    (handleSubmit (fun j => Except.ok j) draftTwoByThree).2.1 =
      [ApiCall.createSurvey "T" none true none,
       ApiCall.createQuestion "Q1" 1 0,
       ApiCall.createOption "A" true 1, ApiCall.createOption "B" true 1,
       ApiCall.createOption "C" false 1,
       ApiCall.createQuestion "Q2" 2 0,
       ApiCall.createOption "D" true 5, ApiCall.createOption "E" true 5,
       ApiCall.createOption "F" true 5] ∧
    (handleSubmit (fun j => Except.ok j) draftTwoByThree).2.2 = some 0 := by
  have h := submit_success_trace draftTwoByThree (fun j => j) (by decide)
  exact ⟨by decide, h.1, by decide, h.2⟩

/-- C3: validation blocks submission.  An empty trimmed title, or a question
with empty trimmed text, or a question above the active cap, each cause
`handleSubmit` to issue no call and surface the first failing check's error,
in the order title, question texts, cap. -/
theorem submit_validation_blocks (oracle : Nat → Except JsError Nat) (s : PageState) :
    ((jsTrim s.titulo) = "" →
      handleSubmit oracle s =
        ({ s with error := some "Informe um título para a pesquisa.", success := none },
          [], none)) ∧
    ((jsTrim s.titulo) ≠ "" → (∃ q ∈ s.questions, (jsTrim q.texto) = "") →
      handleSubmit oracle s =
        ({ s with error := some "Todas as perguntas precisam de um texto.", success := none },
          [], none)) ∧
    ((jsTrim s.titulo) ≠ "" → (∀ q ∈ s.questions, (jsTrim q.texto) ≠ "") →
      (∃ q ∈ s.questions, MAX_ACTIVE_OPTIONS < countActiveOptions q.options) →
      handleSubmit oracle s =
        ({ s with error := some ("Cada pergunta pode ter no máximo " ++
            toString MAX_ACTIVE_OPTIONS ++ " opções ativas."), success := none },
          [], none)) := by
  refine ⟨?_, ?_, ?_⟩
  · intro ht
    have hv : validationError s = some "Informe um título para a pesquisa." := by
      unfold validationError
      rw [if_pos ht]
    simp [handleSubmit, hv]
  · intro ht hex
    obtain ⟨q, hm, he⟩ := hex
    have hall : (s.questions.all (fun q => (jsTrim q.texto) != "")) = false := by
      by_contra hcon
      rw [Bool.not_eq_false] at hcon
      have := List.all_eq_true.mp hcon q hm
      simp [he] at this
    have hv : validationError s = some "Todas as perguntas precisam de um texto." := by
      unfold validationError
      rw [if_neg ht, hall]
      simp
    simp [handleSubmit, hv]
  · intro ht hall hex
    obtain ⟨q, hm, hc⟩ := hex
    have hallb : (s.questions.all (fun q => (jsTrim q.texto) != "")) = true :=
      List.all_eq_true.mpr (fun q' hm' => by simpa using hall q' hm')
    have hanyb : (s.questions.any
        (fun q => decide (MAX_ACTIVE_OPTIONS < countActiveOptions q.options))) = true :=
      List.any_eq_true.mpr ⟨q, hm, by simp [hc]⟩
    have hv : validationError s = some ("Cada pergunta pode ter no máximo " ++
        toString MAX_ACTIVE_OPTIONS ++ " opções ativas.") := by
      unfold validationError
      rw [if_neg ht, hallb, hanyb]
      simp
    simp [handleSubmit, hv]

theorem submit_validation_blocks_witness :
    (jsTrim initState.titulo) = "" ∧
    handleSubmit (fun j => Except.ok j) initState =
      ({ initState with error := some "Informe um título para a pesquisa.", success := none },
        [], none) :=
  ⟨rfl, (submit_validation_blocks (fun j => Except.ok j) initState).1 rfl⟩

/-- C6: failure semantics of submission.  With a backend that answers the
first `k` calls and fails the `k+1`-st with `e`, a validated submission
leaves every draft field exactly as it was, issues at most `k + 1` calls,
only ever issues create calls (no rollback), and, whenever the failing call
was reached, surfaces `parseApiError e`, sets no success message and does
not navigate. -/
theorem submit_failure_semantics (s : PageState) (oracle : Nat → Except JsError Nat)
    (k : Nat) (e : JsError) (hval : validationError s = none)
    (hok : ∀ j, j < k → ∃ n, oracle j = Except.ok n)
    (herr : oracle k = Except.error e) :
    (handleSubmit oracle s).1.titulo = s.titulo ∧
    (handleSubmit oracle s).1.descricao = s.descricao ∧
    (handleSubmit oracle s).1.ativo = s.ativo ∧
    (handleSubmit oracle s).1.dataValidade = s.dataValidade ∧
    (handleSubmit oracle s).1.questions = s.questions ∧
    (handleSubmit oracle s).2.1.length ≤ k + 1 ∧
    ((handleSubmit oracle s).2.1.all (fun c => c.isCreate)) = true ∧
    ((handleSubmit oracle s).2.1.length = k + 1 →
      (handleSubmit oracle s).1.error = some (parseApiError e) ∧
      (handleSubmit oracle s).1.success = none ∧
      (handleSubmit oracle s).2.2 = none) := by
  have hpres := handleSubmit_preserves_draft oracle s
  refine ⟨hpres.1, hpres.2.1, hpres.2.2.1, hpres.2.2.2.1, hpres.2.2.2.2.1, ?_⟩
  rcases Nat.eq_zero_or_pos k with hk0 | hkpos
  · subst hk0
    refine ⟨?_, ?_, ?_⟩
    · simp [handleSubmit, hval, herr]
    · simp [handleSubmit, hval, herr, ApiCall.isCreate]
    · intro _
      refine ⟨?_, ?_, ?_⟩ <;> simp [handleSubmit, hval, herr]
  · obtain ⟨n, hn⟩ := hok 0 hkpos
    have hstop := runQuestions_stop oracle k e hok herr s.questions n 1 hkpos
    have hidx := runQuestions_endIndex oracle s.questions 1 n
    have hall := runQuestions_all_create oracle s.questions 1 n
    rcases hr : runQuestions oracle 1 n s.questions with ⟨calls, kend, e2⟩
    rw [hr] at hstop hidx hall
    simp only at hstop hidx hall
    rcases hstop with ⟨he2, hle⟩ | ⟨he2, hke⟩
    · subst he2
      refine ⟨?_, ?_, ?_⟩
      · simp [handleSubmit, hval, hn, hr]
        omega
      · simp only [handleSubmit, hval, hn, hr]
        rw [List.all_eq_true]
        intro c hc
        simp only [List.mem_cons] at hc
        rcases hc with hc | hc
        · subst hc; rfl
        · exact hall c hc
      · intro hlen
        exfalso
        simp [handleSubmit, hval, hn, hr] at hlen
        omega
    · subst he2
      refine ⟨?_, ?_, ?_⟩
      · simp [handleSubmit, hval, hn, hr]
        omega
      · simp only [handleSubmit, hval, hn, hr]
        rw [List.all_eq_true]
        intro c hc
        simp only [List.mem_cons] at hc
        rcases hc with hc | hc
        · subst hc; rfl
        · exact hall c hc
      · intro _
        refine ⟨?_, ?_, ?_⟩ <;> simp [handleSubmit, hval, hn, hr]

theorem submit_failure_semantics_witness :
    (validationError draftTwoByThree = none ∧
      failSecondOracle 1 = Except.error (JsError.jsError "boom") ∧
      (handleSubmit failSecondOracle draftTwoByThree).2.1.length = 1 + 1) ∧
    ((handleSubmit failSecondOracle draftTwoByThree).1.questions = draftTwoByThree.questions ∧
      (handleSubmit failSecondOracle draftTwoByThree).2.1.length ≤ 1 + 1 ∧
      ((handleSubmit failSecondOracle draftTwoByThree).2.1.all (fun c => c.isCreate)) = true ∧
      (handleSubmit failSecondOracle draftTwoByThree).1.error =
        some (parseApiError (JsError.jsError "boom")) ∧
      (handleSubmit failSecondOracle draftTwoByThree).1.success = none ∧
      (handleSubmit failSecondOracle draftTwoByThree).2.2 = none) := by
  have h := submit_failure_semantics draftTwoByThree failSecondOracle 1 (JsError.jsError "boom")
    (by decide)
    (fun j hj => ⟨7, by
      have hj0 : j = 0 := by omega
      subst hj0
      rfl⟩)
    rfl
  have himp := h.2.2.2.2.2.2.2 (by decide)
  exact ⟨⟨by decide, rfl, by decide⟩,
    h.2.2.2.2.1, h.2.2.2.2.2.1, h.2.2.2.2.2.2.1, himp.1, himp.2.1, himp.2.2⟩
